import Mathlib

/-!
Shallow embedding of the password checker in `src/app.py` (repository
kangindustries/Password-Checker), together with theorems settling the
claims about its specification.

Conventions of the embedding:
* Python strings become `String`; `len` is `String.length` (code points).
* The process-wide `BLACKLIST` set becomes an explicit `List String`
  parameter with `List.contains` membership (entries are stored lowercase).
* Python's `c.isupper()` / `islower()` / `isdigit()` / `str.lower()`
  become `Char.isUpper` / `Char.isLower` / `Char.isDigit` / `str_lower`
  below; these agree on the ASCII inputs all concrete theorems evaluate.
* The scoring variable is a `Nat`; every value it takes in the code is a
  nonnegative integer, and `max 0 (score - count)` is kept literally
  (truncated `Nat` subtraction already agrees with the Python `max`).
* The file read in `load_blacklist` is modelled by a `ReadResult` input
  describing what `open` does, and a raised exception by `Except.error`.
-/

namespace PasswordChecker

/-- Python's `str.lower()`: lowercase character by character (the inputs
evaluated concretely below are ASCII, where `Char.toLower` is exact). -/
def str_lower (s : String) : String :=
  String.mk (s.data.map Char.toLower)

/-- What `open(path)` does in `load_blacklist`: yields the file's lines,
raises `FileNotFoundError`, or raises another `OSError` such as
`PermissionError`. -/
inductive ReadResult where
  | ok (lines : List String)
  | fileNotFound
  | permissionDenied
  deriving DecidableEq

/-- Embedding of `load_blacklist` (src/app.py lines 9-19): strips and
lowercases each line, skips empty results, collects into a set (modelled
as a duplicate-free list). The `try` catches only `FileNotFoundError`
(line 17), so any other exception from `open`, e.g. `PermissionError`,
propagates; that is `Except.error`. -/
def load_blacklist : ReadResult → Except String (List String)
  | ReadResult.ok lines =>
      Except.ok (lines.foldl
        (fun acc line =>
          let password := str_lower line.trim
          if password.length = 0 then acc
          else if acc.contains password then acc
          else acc ++ [password]) [])
  | ReadResult.fileNotFound => Except.ok []
  | ReadResult.permissionDenied => Except.error "PermissionError"

/-- The `LEETSPEAK` translation table (lines 23-36) as a character map;
characters outside the table are unchanged, exactly as `str.translate`. -/
def leet_char (c : Char) : Char :=
  if c = '@' ∨ c = '4' then 'a'
  else if c = '3' then 'e'
  else if c = '1' ∨ c = '!' then 'i'
  else if c = '0' then 'o'
  else if c = '5' ∨ c = '$' then 's'
  else if c = '7' ∨ c = '+' then 't'
  else if c = '8' then 'b'
  else if c = '6' then 'g'
  else if c = '9' then 'g'
  else c

/-- Model of lines 39-40: `unicodedata.normalize("NFD", password)` followed
by dropping the characters of category `Mn`. NFD is the identity on ASCII
strings and no ASCII character has category `Mn`; the combining diacritical
marks U+0300-U+036F (the `Mn` characters NFD decomposition produces for
accented Latin letters) are dropped. The model is exact on every string it
is applied to in the theorems below. -/
def ascii_approx (s : String) : String :=
  String.mk (s.data.filter (fun c => !(0x300 ≤ c.toNat && c.toNat ≤ 0x36F)))

/-- Embedding of `normalize` (lines 38-41): accent-strip, lowercase, then
apply the leetspeak table character by character, single pass. -/
def normalize (password : String) : String :=
  String.mk ((str_lower (ascii_approx password)).data.map leet_char)

/-- Fixed warning of check 1 of `apply_pattern_penalties` (line 51). -/
def repeated_run_msg : String :=
  "Avoid using repeated characters (e.g., \x27aaa\x27 / \x27111\x27)."

/-- Fixed warning of check 2 of `apply_pattern_penalties` (line 64). -/
def trailing_digits_msg : String :=
  "Avoid ending with multiple digits (common predictable pattern)."

/-- Warning of check 3 of `apply_pattern_penalties` (line 74), naming the
matched sequence. -/
def sequence_msg (seq : String) : String :=
  "Avoid using a common sequence (\x27" ++ seq ++ "\x27)."

/-- The scan of lines 48-52: look at every window of 3 consecutive
characters, true iff some window has all three equal (the loop breaks at
the first hit, so the count it adds is exactly one). -/
def has_triple_run : List Char → Bool
  | a :: b :: c :: rest => (a == b && b == c) || has_triple_run (b :: c :: rest)
  | _ => false

/-- Lines 56-61: walk the reversed password, counting consecutive digit
characters until the first non-digit. -/
def count_end_digits : List Char → Nat
  | [] => 0
  | c :: rest => if c.isDigit then 1 + count_end_digits rest else 0

/-- `l₁` is an initial segment of `l₂`. -/
def startsWith : List Char → List Char → Bool
  | [], _ => true
  | _ :: _, [] => false
  | a :: as, b :: bs => a == b && startsWith as bs

/-- Python's `needle in hay` on strings: contiguous substring containment. -/
def str_in (needle : List Char) : List Char → Bool
  | [] => needle.isEmpty
  | b :: bs => startsWith needle (b :: bs) || str_in needle bs

/-- The fixed ordered sequence table of lines 68-70. -/
def sequences : List String :=
  ["0123", "1234", "2345", "3456", "4567", "5678", "6789",
   "abcd", "bcde", "cdef", "defg", "efgh", "fghi", "ghij",
   "qwerty", "asdf", "zxcv"]

/-- The warnings check 1 of `apply_pattern_penalties` appends: one fixed
message if the password has a run of three equal characters, else none. -/
def repetition_warnings (password : String) : List String :=
  if has_triple_run password.data then [repeated_run_msg] else []

/-- The warnings check 2 appends: one fixed message if the password has
length at least 6 and ends in at least two digit characters, else none. -/
def trailing_warnings (password : String) : List String :=
  if password.length ≥ 6 ∧ count_end_digits password.data.reverse ≥ 2 then
    [trailing_digits_msg]
  else []

/-- The warnings check 3 appends: one message naming the first entry of
`sequences` found inside the lowercased password, else none. -/
def sequence_warnings (password : String) : List String :=
  match sequences.find? (fun seq => str_in seq.data (str_lower password).data) with
  | some seq => [sequence_msg seq]
  | none => []

/-- Embedding of `apply_pattern_penalties` (lines 43-77): three sequential
checks, each adding at most one penalty point and one warning. -/
def apply_pattern_penalties (password : String) : Nat × List String :=
  let count : Nat := 0
  let warnings : List String := []
  let (count, warnings) :=
    if has_triple_run password.data then
      (count + 1, warnings ++ [repeated_run_msg])
    else (count, warnings)
  let (count, warnings) :=
    if password.length ≥ 6 ∧ count_end_digits password.data.reverse ≥ 2 then
      (count + 1, warnings ++ [trailing_digits_msg])
    else (count, warnings)
  let (count, warnings) :=
    match sequences.find? (fun seq => str_in seq.data (str_lower password).data) with
    | some seq => (count + 1, warnings ++ [sequence_msg seq])
    | none => (count, warnings)
  (count, warnings)

/-- The fixed symbol string of line 127, as the list of its characters
(the characters awkward to write literally are given by code point:
123 `lbrace`, 125 `rbrace`, 39 apostrophe, 34 double quote, 92 backslash,
96 backtick). -/
def symbols : List Char :=
  ['!', '@', '#', '$', '%', '^', '&', '*', '(', ')', '-', '_', '=', '+',
   '[', ']', Char.ofNat 123, Char.ofNat 125, ';', ':', Char.ofNat 39,
   Char.ofNat 34, ',', '.', '<', '>', '/', '?', Char.ofNat 92, '|',
   Char.ofNat 96, '~']

/-- Lines 103-110 of `evaluate_password`: the points the length if-chain
adds to `score`, and what it appends to `feedback`. -/
def length_step (n : Nat) : Nat × List String :=
  if n ≥ 20 then (3, [])
  else if n ≥ 16 then (2, [])
  else if n ≥ 12 then (1, [])
  else (0, ["Use 12+ characters — longer is stronger."])

/-- One character-class block of `evaluate_password` (lines 112-115,
117-120, 122-125, 128-131): `+1` to `score` when the class is present,
else its message appended to `feedback`. -/
def class_step (present : Bool) (msg : String) : Nat × List String :=
  if present then (1, []) else (0, [msg])

/-- Lines 145-148: the extra feedback appended in the "Okay" branch. -/
def okay_extra (n : Nat) : List String :=
  if n < 16 then ["Using 16+ characters would make this stronger."]
  else if n < 20 then
    ["You can try using a password with 20+ characters to reach strong."]
  else []

/-- Embedding of `evaluate_password` (lines 80-152). `blacklist` stands for
the module-level `BLACKLIST`; the result is `(score, category, feedback)`.
Python's `if not password` on a string is the emptiness test, written here
as `length = 0`. The sequential `score += ...` / `feedback.append(...)`
accumulation is rendered block by block: `s1`-`s5` are the per-block score
increments and feedback appends in source order, `max 0 (... - pat.1)` is
line 136, and the feedback concatenation keeps the exact append order of
the code. -/
def evaluate_password (blacklist : List String) (password : String) :
    Nat × String × List String :=
  if password.length = 0 then (0, "Weak", ["Password cannot be empty."])
  else if password.length < 6 then
    (0, "Weak", ["Password is too short — use at least 6 characters."])
  else if blacklist.contains (str_lower password) then
    (0, "Weak", ["This password is commonly used. Choose a different one."])
  else
    let s1 := length_step password.length
    let s2 := class_step (password.data.any Char.isUpper) "Add an uppercase letter."
    let s3 := class_step (password.data.any Char.isLower) "Add a lowercase letter."
    let s4 := class_step (password.data.any Char.isDigit) "Add a number."
    let s5 := class_step (password.data.any (fun c => symbols.contains c))
      "Add a symbol (like ! or #)."
    let pat := apply_pattern_penalties password
    let score := max 0 (s1.1 + s2.1 + s3.1 + s4.1 + s5.1 - pat.1)
    let feedback := s1.2 ++ s2.2 ++ s3.2 ++ s4.2 ++ s5.2 ++ pat.2
    if score ≤ 3 then (score, "Weak", feedback)
    else if score ≤ 5 then (score, "Okay", feedback ++ okay_extra password.length)
    else (score, "Strong", feedback)

/-! Helper lemmas shared by several theorems below. -/

/-- The length if-chain adds at most 3 points. -/
theorem length_step_fst_le (n : Nat) : (length_step n).1 ≤ 3 := by
  unfold length_step
  repeat' split
  all_goals dsimp only
  all_goals omega

/-- The length if-chain awards 2 or more points only from length 16 up. -/
theorem length_step_two_points (n : Nat) (h : 2 ≤ (length_step n).1) : 16 ≤ n := by
  unfold length_step at h
  repeat' split at h
  all_goals dsimp only at h
  all_goals omega

/-- A character-class block adds at most 1 point. -/
theorem class_step_fst_le (b : Bool) (m : String) : (class_step b m).1 ≤ 1 := by
  unfold class_step
  split
  all_goals dsimp only
  all_goals omega

/-- Claim C1, as stated, is false: with the blacklist `{"abc"}`, the string
`"abc"` has its lowercase form in the blacklist, yet `evaluate_password`
answers with the too-short message, because the length check at line 93
runs before the blacklist check at line 99. -/
theorem short_blacklisted_counterexample :
    List.contains ["abc"] (str_lower "abc") = true ∧
    evaluate_password ["abc"] "abc" ≠
      (0, "Weak", ["This password is commonly used. Choose a different one."]) :=
  ⟨by decide, by decide⟩

/-- Claim C1 (amended): for every string of length at least 6 whose
lowercase form is in the blacklist, `evaluate_password` returns exactly
`(0, "Weak", ["This password is commonly used. Choose a different one."])`,
regardless of character classes. -/
theorem blacklisted_of_length_ge_six (bl : List String) (pw : String)
    (h6 : 6 ≤ pw.length) (hbl : bl.contains (str_lower pw) = true) :
    evaluate_password bl pw =
      (0, "Weak", ["This password is commonly used. Choose a different one."]) := by
  unfold evaluate_password
  rw [if_neg (by omega), if_neg (by omega), if_pos hbl]

/-- Concrete instance of the amended claim C1: `"SeCreT"` against the
blacklist `{"secret"}`. -/
theorem blacklisted_of_length_ge_six_witness :
    6 ≤ String.length "SeCreT" ∧
    List.contains ["secret"] (str_lower "SeCreT") = true ∧
    evaluate_password ["secret"] "SeCreT" =
      (0, "Weak", ["This password is commonly used. Choose a different one."]) :=
  ⟨by decide, by decide,
    blacklisted_of_length_ge_six ["secret"] "SeCreT" (by decide) (by decide)⟩

/-- Claim C2, as stated, is false: `"Tr0ub4dor&3XXXXXXXX"` has length 19
(not at least 20) and contains the repeated run `"XXX"`, so its result is
not `(7, "Strong", [])`. -/
theorem troubadour_counterexample :
    evaluate_password [] "Tr0ub4dor&3XXXXXXXX" ≠ (7, "Strong", []) := by decide

/-- Claim C2 (amended): for any blacklist not containing it,
`"Tr0ub4dor&3XXXXXXXX"` scores 2 (length 19) + 4 (all classes) - 1
(repeated-run penalty) = 5, category "Okay", with the repeated-characters
warning and the 20+-characters suggestion as feedback. -/
theorem troubadour_eval (bl : List String)
    (h : bl.contains (str_lower "Tr0ub4dor&3XXXXXXXX") = false) :
    evaluate_password bl "Tr0ub4dor&3XXXXXXXX" =
      (5, "Okay", [repeated_run_msg,
        "You can try using a password with 20+ characters to reach strong."]) := by
  have hc : ¬(bl.contains (str_lower "Tr0ub4dor&3XXXXXXXX") = true) := by
    rw [h]; decide
  unfold evaluate_password
  rw [if_neg (by decide), if_neg (by decide), if_neg hc]
  decide

/-- Concrete instance of the amended claim C2, with the empty blacklist. -/
theorem troubadour_eval_witness :
    List.contains ([] : List String) (str_lower "Tr0ub4dor&3XXXXXXXX") = false ∧
    evaluate_password [] "Tr0ub4dor&3XXXXXXXX" =
      (5, "Okay", [repeated_run_msg,
        "You can try using a password with 20+ characters to reach strong."]) :=
  ⟨by decide, troubadour_eval [] (by decide)⟩

/-- Claim C3, as stated, is false: `load_blacklist` catches only
`FileNotFoundError`, so an unreadable file whose `open` raises
`PermissionError` propagates the exception instead of yielding an empty
set. -/
theorem load_blacklist_permission_counterexample :
    load_blacklist ReadResult.permissionDenied = Except.error "PermissionError" :=
  rfl

/-- Claim C3 (amended): when the blacklist file is missing
(`FileNotFoundError`), `load_blacklist` returns an empty set without
raising, and a successful read also never raises. -/
theorem load_blacklist_missing_file :
    load_blacklist ReadResult.fileNotFound = Except.ok [] ∧
    ∀ lines, ∃ s, load_blacklist (ReadResult.ok lines) = Except.ok s :=
  ⟨rfl, fun _ => ⟨_, rfl⟩⟩

/-- Claim C4: for every blacklist and every input string, the score
component of `evaluate_password` is in the closed range `[0, 7]`. -/
theorem score_in_range (bl : List String) (pw : String) :
    0 ≤ (evaluate_password bl pw).1 ∧ (evaluate_password bl pw).1 ≤ 7 := by
  unfold evaluate_password
  split
  · simp
  split
  · simp
  split
  · simp
  have h1 := length_step_fst_le pw.length
  have h2 := class_step_fst_le (pw.data.any Char.isUpper) "Add an uppercase letter."
  have h3 := class_step_fst_le (pw.data.any Char.isLower) "Add a lowercase letter."
  have h4 := class_step_fst_le (pw.data.any Char.isDigit) "Add a number."
  have h5 := class_step_fst_le (pw.data.any (fun c => symbols.contains c))
    "Add a symbol (like ! or #)."
  dsimp only
  repeat' split
  all_goals dsimp only
  all_goals omega

/-- Claim C5: for every input that reaches the scoring stage (length at
least 6 and not blacklisted), the returned category is exactly "Weak" for
score at most 3, exactly "Okay" for score 4-5, and exactly "Strong" for
score at least 6. -/
theorem category_bands (bl : List String) (pw : String) (h6 : 6 ≤ pw.length)
    (hbl : bl.contains (str_lower pw) = false) :
    ((evaluate_password bl pw).2.1 = "Weak" ↔ (evaluate_password bl pw).1 ≤ 3) ∧
    ((evaluate_password bl pw).2.1 = "Okay" ↔
      4 ≤ (evaluate_password bl pw).1 ∧ (evaluate_password bl pw).1 ≤ 5) ∧
    ((evaluate_password bl pw).2.1 = "Strong" ↔ 6 ≤ (evaluate_password bl pw).1) := by
  have hc : ¬(bl.contains (str_lower pw) = true) := by rw [hbl]; decide
  unfold evaluate_password
  rw [if_neg (by omega), if_neg (by omega), if_neg hc]
  dsimp only
  repeat' split
  all_goals dsimp only
  all_goals refine ⟨?_, ?_, ?_⟩
  all_goals constructor
  all_goals intro hq
  all_goals first | rfl | omega | exact absurd hq (by decide)

/-- Concrete instance of claim C5: `"Zzyyxx"` (score 2, category "Weak")
with the empty blacklist. -/
theorem category_bands_witness :
    6 ≤ String.length "Zzyyxx" ∧
    List.contains ([] : List String) (str_lower "Zzyyxx") = false ∧
    (((evaluate_password [] "Zzyyxx").2.1 = "Weak" ↔
        (evaluate_password [] "Zzyyxx").1 ≤ 3) ∧
     ((evaluate_password [] "Zzyyxx").2.1 = "Okay" ↔
        4 ≤ (evaluate_password [] "Zzyyxx").1 ∧ (evaluate_password [] "Zzyyxx").1 ≤ 5) ∧
     ((evaluate_password [] "Zzyyxx").2.1 = "Strong" ↔
        6 ≤ (evaluate_password [] "Zzyyxx").1)) :=
  ⟨by decide, by decide, category_bands [] "Zzyyxx" (by decide) (by decide)⟩

/-- Claim C6: each pattern check contributes at most one penalty point and
one warning, the total count is at most 3 and equals the sum of the three
per-check contributions, and the warnings are concatenated in the fixed
check order: repetition, then trailing digits, then sequence. -/
theorem pattern_penalties_capped_and_ordered (pw : String) :
    (apply_pattern_penalties pw).1 ≤ 3 ∧
    (repetition_warnings pw).length ≤ 1 ∧
    (trailing_warnings pw).length ≤ 1 ∧
    (sequence_warnings pw).length ≤ 1 ∧
    (apply_pattern_penalties pw).1 =
      (repetition_warnings pw).length + (trailing_warnings pw).length +
        (sequence_warnings pw).length ∧
    (apply_pattern_penalties pw).2 =
      repetition_warnings pw ++ trailing_warnings pw ++ sequence_warnings pw := by
  unfold apply_pattern_penalties repetition_warnings trailing_warnings sequence_warnings
  split <;> split <;> split <;> simp_all

/-- Claim C7: `evaluate_password` consults the blacklist only through the
membership of the raw lowercased password (two blacklists agreeing on that
test give identical results), and there is a password whose normalized
form is blacklisted but which is not rejected by the blacklist branch. -/
theorem blacklist_raw_lowercase :
    (∀ bl₁ bl₂ pw, bl₁.contains (str_lower pw) = bl₂.contains (str_lower pw) →
      evaluate_password bl₁ pw = evaluate_password bl₂ pw) ∧
    (List.contains ["password"] (normalize "P@ssw0rd") = true ∧
     List.contains ["password"] (str_lower "P@ssw0rd") = false ∧
     evaluate_password ["password"] "P@ssw0rd" ≠
       (0, "Weak", ["This password is commonly used. Choose a different one."])) := by
  constructor
  · intro bl₁ bl₂ pw h
    unfold evaluate_password
    rw [h]
  · exact ⟨by decide, by decide, by decide⟩

/-- Concrete instance of claim C7: two blacklists that agree on the raw
lowercase membership of `"Password1!"` produce the same result. -/
theorem blacklist_raw_lowercase_witness :
    List.contains ["qwerty"] (str_lower "Password1!") =
      List.contains ["letmein"] (str_lower "Password1!") ∧
    evaluate_password ["qwerty"] "Password1!" =
      evaluate_password ["letmein"] "Password1!" :=
  ⟨by decide, blacklist_raw_lowercase.1 ["qwerty"] ["letmein"] "Password1!" (by decide)⟩

/-- Claim C8: `evaluate_password` always returns a `(score, category,
feedback)` triple through its normal return path, with the category one of
the three labels; the embedding is a total computable function, so no
input can raise. -/
theorem evaluate_password_total (bl : List String) (pw : String) :
    ∃ s c f, evaluate_password bl pw = (s, c, f) ∧
      (c = "Weak" ∨ c = "Okay" ∨ c = "Strong") := by
  unfold evaluate_password
  repeat' split
  all_goals try dsimp only
  all_goals repeat' split
  all_goals exact ⟨_, _, _, rfl, by simp⟩

/-- Claim C9: the penalty count returned by `apply_pattern_penalties`
always equals the number of warnings it returns. -/
theorem penalty_count_eq_warnings_length (pw : String) :
    (apply_pattern_penalties pw).1 = (apply_pattern_penalties pw).2.length := by
  unfold apply_pattern_penalties
  split <;> split <;> split <;> simp

/-- Claim C10: a "Strong" verdict requires length at least 16, since the
four character-class points total at most 4 and penalties only subtract,
so a score of 6 needs at least 2 length points. -/
theorem strong_needs_sixteen (bl : List String) (pw : String)
    (h : (evaluate_password bl pw).2.1 = "Strong") : 16 ≤ pw.length := by
  have h2 := class_step_fst_le (pw.data.any Char.isUpper) "Add an uppercase letter."
  have h3 := class_step_fst_le (pw.data.any Char.isLower) "Add a lowercase letter."
  have h4 := class_step_fst_le (pw.data.any Char.isDigit) "Add a number."
  have h5 := class_step_fst_le (pw.data.any (fun c => symbols.contains c))
    "Add a symbol (like ! or #)."
  unfold evaluate_password at h
  split at h
  · exact absurd h (by decide)
  split at h
  · exact absurd h (by decide)
  split at h
  · exact absurd h (by decide)
  dsimp only at h
  repeat' split at h
  all_goals dsimp only at h
  all_goals first | exact absurd h (by decide) | (apply length_step_two_points; omega)

/-- Concrete instance of claim C10: `"Aa1!Bc2@Dd3#Ee4$"` (length 16) is
rated "Strong". -/
theorem strong_needs_sixteen_witness :
    (evaluate_password [] "Aa1!Bc2@Dd3#Ee4$").2.1 = "Strong" ∧
    16 ≤ String.length "Aa1!Bc2@Dd3#Ee4$" :=
  ⟨by decide, strong_needs_sixteen [] "Aa1!Bc2@Dd3#Ee4$" (by decide)⟩

end PasswordChecker
